import Mathlib

/-!
Shallow embedding of the outgoing-sync record-translation subsystem of
`src/sync/outgoingSyncUtils.js`: the envelope builder `generateSyncJson`,
the per-type field projector `generateSyncData`, the date/time formatting
helpers `getDateString` / `getTimeString`, and the safe navigator `safeGet`.

Modelling conventions, stated once:
* JavaScript runtime values traversed by `safeGet` are modelled by the
  inductive `JsValue`; a property access on `null`/`undefined` faults
  (raises a TypeError), any other receiver yields the looked-up property
  or `undefined` when absent.
* JavaScript numbers are modelled as `Int`; no claim depends on float
  formatting, only on numbers being rendered through `String(...)`.
* Realm `date` properties are modelled as `Option JsDate`; dates carry
  plain calendar/wall-clock fields (a zero-offset timezone, so
  `toISOString` renders the calendar fields directly).
* Thrown JavaScript errors are modelled by `Except JsError`; `JsError`
  carries the message and the ad hoc `canDeleteSyncOut` marker used by
  the sync queue.
* Derived Realm getters whose defining class is outside this module
  (e.g. `StocktakeBatch.itemBatchId`) are modelled as the string values
  they return.
-/

/-- Model of a JavaScript runtime value, as traversed by `safeGet`. -/
inductive JsValue where
  | undefined : JsValue
  | null : JsValue
  | str : String → JsValue
  | num : Int → JsValue
  | bool : Bool → JsValue
  | obj : List (String × JsValue) → JsValue
deriving Repr, Inhabited

/-- Model of a thrown JavaScript error: a message plus the ad hoc
`canDeleteSyncOut` marker property (absent on a fresh error, hence the
`false` default). -/
structure JsError where
  message : String
  canDeleteSyncOut : Bool := false
deriving Repr, DecidableEq, Inhabited

/-- Receiver values on which a JavaScript property access faults:
exactly `null` and `undefined`. -/
def isNullish : JsValue → Bool
  | .undefined => true
  | .null => true
  | _ => false

/-- Total property lookup, used when the receiver is not nullish: an
object yields the named field (or `undefined` when absent); a primitive
yields `undefined`. -/
def lookupProp : JsValue → String → JsValue
  | .obj fields, seg =>
    match fields.lookup seg with
    | some v => v
    | none => .undefined
  | _, _ => .undefined

/-- Model of the JavaScript property access `v[seg]`: a TypeError on a
nullish receiver, otherwise the looked-up value. -/
def getProp (v : JsValue) (seg : String) : Except JsError JsValue :=
  if isNullish v then
    .error { message := "TypeError: cannot read property " ++ seg ++ " of nullish value" }
  else
    .ok (lookupProp v seg)

/-- Accumulated `currentPath` after walking a list of segments, mirroring
the JS statement `currentPath += "." + segment` executed per segment. -/
def extendPath (currentPath : String) (segs : List String) : String :=
  segs.foldl (fun acc s => acc ++ "." ++ s) currentPath

/-- Loop body of `safeGet` (`outgoingSyncUtils.js` lines 275-287): walk
the remaining segments, extending `currentPath` first, and on an access
fault rethrow the error with `canDeleteSyncOut = true` and the rewritten
message naming `currentPath`. -/
def safeGetAux : JsValue → List String → String → Except JsError JsValue
  | v, [], _ => .ok v
  | v, seg :: rest, currentPath =>
    let cp := currentPath ++ "." ++ seg
    match getProp v seg with
    | .error e =>
      .error { message := "Error on object getter on path \"" ++ cp ++
                 "\", original message: " ++ e.message,
               canDeleteSyncOut := true }
    | .ok v2 => safeGetAux v2 rest cp

/-- Accumulator loop for `splitSegs`, walking the character list and
cutting at every separator. -/
def splitSegsAux : List Char → List Char → List String
  | [], acc => [String.mk acc.reverse]
  | c :: rest, acc =>
    if c = '.' then String.mk acc.reverse :: splitSegsAux rest []
    else splitSegsAux rest (c :: acc)

/-- Model of the JS call `path.split('.')`: cut the string at every dot
(so an empty input yields one empty segment, and adjacent or trailing
dots yield empty segments), exactly the JS semantics for a
one-character separator. -/
def splitSegs (path : String) : List String :=
  splitSegsAux path.data []

/-- Model of `safeGet(record, path)` (`outgoingSyncUtils.js` lines
271-289): split the dotted path, start `currentPath` at the literal
string `record`, and walk. -/
def safeGet (record : JsValue) (path : String) : Except JsError JsValue :=
  safeGetAux record (splitSegs path) "record"

/-- Fault-free walk of a segment list: the value reached by repeatedly
applying `lookupProp`. Used to characterise `safeGet`; it agrees with the
JS traversal as long as no receiver along the way is nullish. -/
def walkList (v : JsValue) (segs : List String) : JsValue :=
  segs.foldl lookupProp v

/-- Model of a JavaScript `Date`: calendar date plus wall-clock time, in
a zero-offset timezone, with a 1-based month. -/
structure JsDate where
  year : Nat := 0
  month : Nat := 1
  day : Nat := 1
  hours : Nat := 0
  minutes : Nat := 0
  seconds : Nat := 0
deriving Repr, DecidableEq, Inhabited

/-- Model of the JS constructor `new Date(y, m, d)` with its 0-based
month index and midnight time-of-day. -/
def jsNewDate (y m d : Nat) : JsDate :=
  { year := y, month := m + 1, day := d }

/-- Left-pads the decimal rendering of a number with zeros to the given
width, as the fixed-width fields of `toISOString` / `toTimeString` are. -/
def padNum (width n : Nat) : String :=
  let s := toString n
  (String.mk (List.replicate (width - s.length) '0')) ++ s

/-- Model of `date.toISOString().slice(0, 10)`: the `YYYY-MM-DD` date
part of the ISO rendering. -/
def isoDatePart (d : JsDate) : String :=
  padNum 4 d.year ++ "-" ++ padNum 2 d.month ++ "-" ++ padNum 2 d.day

/-- Model of `getDateString(date)` (`outgoingSyncUtils.js` lines
251-256): a present structured date renders as `YYYY-MM-DD`, anything
else as the literal `0000-00-00`; `T00:00:00` is appended
unconditionally. An absent Realm date property is `none`. -/
def getDateString (date : Option JsDate) : String :=
  let returnDate :=
    match date with
    | some d => isoDatePart d
    | none => "0000-00-00"
  returnDate ++ "T00:00:00"

/-- Model of `getTimeString(date)` (`outgoingSyncUtils.js` lines
258-261): the literal `00:00:00` for an absent value, otherwise
`date.toTimeString().substring(0, 8)`, i.e. the wall-clock `HH:MM:SS`. -/
def getTimeString (date : Option JsDate) : String :=
  match date with
  | none => "00:00:00"
  | some d => padNum 2 d.hours ++ ":" ++ padNum 2 d.minutes ++ ":" ++ padNum 2 d.seconds

/-- Reference to a related Realm entity reached through an optional
link; only its `id` is read by the projector. -/
structure EntityRef where
  id : String := ""
deriving Repr, DecidableEq, Inhabited

/-- The parent `Transaction` of a `TransactionBatch`; the projector
reads its `id`, its `isInventoryAdjustment` getter and its `type`. -/
structure TransactionRef where
  id : String := ""
  isInventoryAdjustment : Bool := false
  type : String := ""
deriving Repr, DecidableEq, Inhabited

/-- Union of the Realm record fields read by `generateSyncData` across
the nine supported record types. Numbers are modelled as `Int`, Realm
`date` properties as `Option JsDate`, optional entity links as
`Option EntityRef` (a `none` link is JavaScript `null` in Realm). -/
structure RealmRecord where
  id : String := ""
  itemId : String := ""
  packSize : Int := 0
  expiryDate : Option JsDate := none
  batch : String := ""
  numberOfPacks : Int := 0
  totalQuantity : Int := 0
  costPrice : Int := 0
  sellPrice : Int := 0
  sequenceKey : String := ""
  highestNumberUsed : Int := 0
  number : Int := 0
  entryDate : Option JsDate := none
  enteredById : String := ""
  otherStoreName : Option EntityRef := none
  status : String := ""
  daysToSupply : Int := 0
  serialNumber : String := ""
  requesterReference : String := ""
  comment : String := ""
  type : String := ""
  requisitionId : String := ""
  stockOnHand : Int := 0
  dailyUsage : Int := 0
  suggestedQuantity : Int := 0
  suppliedQuantity : Int := 0
  sortIndex : Int := 0
  requiredQuantity : Int := 0
  name : String := ""
  stocktakeDate : Option JsDate := none
  createdBy : Option EntityRef := none
  finalisedBy : Option EntityRef := none
  additions : Option EntityRef := none
  reductions : Option EntityRef := none
  createdDate : Option JsDate := none
  stocktake : Option EntityRef := none
  snapshotNumberOfPacks : Int := 0
  countedNumberOfPacks : Int := 0
  itemBatchId : String := ""
  otherParty : Option EntityRef := none
  totalPrice : Int := 0
  theirRef : String := ""
  confirmDate : Option JsDate := none
  enteredBy : Option EntityRef := none
  category : Option EntityRef := none
  linkedRequisition : Option EntityRef := none
  transaction : Option TransactionRef := none
  itemBatch : Option EntityRef := none
  itemName : String := ""
  note : String := ""
deriving Repr, DecidableEq, Inhabited

/-- Value stored under one external field name of the `Data` payload.
The projector produces strings, one boolean field
(`is_from_inventory_adjustment`), JavaScript `null` (`nullv`, the
result of `x && x.id` on an absent reference, which Realm surfaces as
null), and the absent value `undefined` (produced only by the
`requisition_ID` ternary, and dropped by wire serialization where null
is kept). -/
inductive SyncValue where
  | s : String → SyncValue
  | b : Bool → SyncValue
  | nullv : SyncValue
  | undefined : SyncValue
deriving Repr, DecidableEq, Inhabited

/-- An external `Data` payload: external field names and values, in the
order of the source object literal. -/
abbrev SyncData := List (String × SyncValue)

/-- Fields of a payload that survive wire serialization: JavaScript's
`JSON.stringify` drops keys whose value is `undefined` (while keeping
`null` ones), so a field holding `undefined` is omitted from the wire. -/
def serializedFields (data : SyncData) : SyncData :=
  data.filter fun kv => kv.2 != SyncValue.undefined

/-- Modelled from the spec: the contract of the vocabulary translator
(module `syncTranslators`, not under `src/`). Each table is a
deterministic partial map from internal to external tokens (the only
direction this subsystem uses); `sequenceKeys` is additionally
parameterized by the local store id. -/
structure Translators where
  recordTypes : String → Option String
  syncTypes : String → Option String
  requisitionStatuses : String → Option String
  requisitionTypes : String → Option String
  statuses : String → Option String
  transactionTypes : String → Option String
  transactionBatchTypes : String → Option String
  sequenceKeys : String → String → Option String

/-- Modelled from the spec: `translate(token, INTERNAL_TO_EXTERNAL)` on
one vocabulary table; a token without an entry raises an
unknown-vocabulary-token error. -/
def translateTok (table : String → Option String) (tok : String) : Except JsError String :=
  match table tok with
  | some ext => .ok ext
  | none => .error { message := "Unknown vocabulary token " ++ tok }

/-- Modelled from the spec: the store-scoped sequence-key translation
`SEQUENCE_KEYS.translate(token, INTERNAL_TO_EXTERNAL, thisStoreId)`. -/
def translateSeqKey (tr : Translators) (tok thisStoreId : String) : Except JsError String :=
  match tr.sequenceKeys tok thisStoreId with
  | some ext => .ok ext
  | none => .error { message := "Unknown vocabulary token " ++ tok }

/-- Local settings reads used by the translation: the four
`SETTINGS_KEYS` the source reads (`THIS_STORE_ID`,
`SUPPLYING_STORE_NAME_ID`, `SYNC_URL`, `SYNC_SITE_NAME`). -/
structure SettingsStore where
  thisStoreId : String := ""
  supplyingStoreNameId : String := ""
  syncUrl : String := ""
  syncSiteName : String := ""
deriving Repr, DecidableEq, Inhabited

/-- Modelled from the spec: `CHANGE_TYPES.DELETE` from the database
module (not under `src/`); the spec's change kinds are create, update
and delete, carried as the lower-case token. -/
def CHANGE_TYPE_DELETE : String := "delete"

/-- The sync-out change record consumed by `generateSyncJson`:
`isValid` models the Realm object validity check `isValid()`, the
string fields model the record's properties, with the empty string as
the falsy absent value. -/
structure SyncOutRecord where
  isValid : Bool := true
  id : String := ""
  recordType : String := ""
  recordId : String := ""
  changeType : String := ""
deriving Repr, DecidableEq, Inhabited

/-- The translated envelope. `Data` is `none` when the source object
has no `Data` key attached. -/
structure SyncJson where
  SyncID : String
  RecordType : String
  RecordID : String
  SyncType : String
  StoreID : String
  Data : Option SyncData
deriving Repr, DecidableEq, Inhabited

/-- Observable calls made to external collaborators during one
translation: an entity-store query
(`database.objects(recordType).filtered(id == $0, recordId)`) and a
diagnostic report (`bugsnagClient.notify`, logged with the message the
error carries at call time). -/
inductive Event where
  | query : String → String → Event
  | notify : String → Event
deriving Repr, DecidableEq, Inhabited

/-- Predicate picking the diagnostic-report events out of a trace. -/
def Event.isNotify : Event → Bool
  | .notify _ => true
  | _ => false

/-- Number of diagnostic-report calls in a trace. -/
def notifyCount (events : List Event) : Nat :=
  (events.filter Event.isNotify).length

/-- The entity store, as queried by the builder: record type and record
id to the list of matching entities. -/
abbrev Database := String → String → List RealmRecord

/-- The external diagnostic reporter: `notify` may itself fault, which
the model surfaces as an `Except` error. -/
abbrev Reporter := JsError → Except JsError Unit

/-- Model of the JS idiom `x && x.id` on an optional entity reference:
Realm yields `null` for an absent link (the same convention as
`itemBatchAsJsValue` and the source's merge-deleted comment), and
`null && null.id` evaluates to `null`, so the field is set to JS null;
a present reference yields its id string. -/
def optRefId : Option EntityRef → SyncValue
  | none => .nullv
  | some r => .s r.id

/-- Model of a direct property read `record.transaction.f` on the
possibly-absent parent transaction: a TypeError when the link is
absent. -/
def txnField {α : Type} (t : Option TransactionRef) (f : TransactionRef → α) :
    Except JsError α :=
  match t with
  | none => .error { message := "TypeError: cannot read property of nullish value" }
  | some tref => .ok (f tref)

/-- The `TransactionBatch` record seen as the JavaScript object root
handed to `safeGet`: its `itemBatch` link is `null` when absent (the
merge-deleted case the source comments on), else an object carrying the
batch's string id. -/
def itemBatchAsJsValue : Option EntityRef → JsValue
  | none => .null
  | some ib => .obj [("id", .str ib.id)]

/-- Model of the JS ternary
`record.linkedRequisition && record.linkedRequisition.id ? record.linkedRequisition.id : undefined`:
unlike the plain `x && x.id` idiom it also maps a falsy (empty) id to
the absent value. -/
def linkedRequisitionId : Option EntityRef → SyncValue
  | some r => if r.id = "" then SyncValue.undefined else SyncValue.s r.id
  | none => SyncValue.undefined

/-- Conversion of the `safeGet` result into a payload value. At its one
call site (`item_line_ID`) the schema makes the value a string; the
remaining cases are unreachable there and map conservatively. -/
def jsToSyncValue : JsValue → SyncValue
  | .str s => .s s
  | .undefined => .undefined
  | .null => .nullv
  | .bool b => .b b
  | .num n => .s (toString n)
  | .obj _ => .undefined

/-- Model of `generateSyncData(settings, recordType, record)`
(`outgoingSyncUtils.js` lines 102-249): dispatch on the record type and
build the external field map, field for field in source order; the
vocabulary tables are passed explicitly since the source imports them
as module values. Fallible subterms (vocabulary translation, property
reads through an absent parent transaction, `safeGet`) are sequenced in
the evaluation order of the source object literals. -/
def generateSyncData (tr : Translators) (settings : SettingsStore)
    (recordType : String) (record : RealmRecord) : Except JsError SyncData :=
  match recordType with
  | "ItemBatch" =>
    .ok [("ID", .s record.id),
         ("store_ID", .s settings.thisStoreId),
         ("item_ID", .s record.itemId),
         ("pack_size", .s (toString record.packSize)),
         ("expiry_date", .s (getDateString record.expiryDate)),
         ("batch", .s record.batch),
         ("available", .s (toString record.numberOfPacks)),
         ("quantity", .s (toString record.numberOfPacks)),
         ("stock_on_hand_tot", .s (toString record.totalQuantity)),
         ("cost_price", .s (toString record.costPrice)),
         ("sell_price", .s (toString record.sellPrice)),
         ("total_cost", .s (toString (record.costPrice * record.numberOfPacks))),
         ("name_ID", .s settings.supplyingStoreNameId)]
  | "NumberSequence" =>
    match translateSeqKey tr record.sequenceKey settings.thisStoreId with
    | .error e => .error e
    | .ok name =>
      .ok [("ID", .s record.id),
           ("name", .s name),
           ("value", .s (toString record.highestNumberUsed))]
  | "NumberToReuse" =>
    match translateSeqKey tr record.sequenceKey settings.thisStoreId with
    | .error e => .error e
    | .ok name =>
      .ok [("ID", .s record.id),
           ("name", .s name),
           ("number_to_use", .s (toString record.number))]
  | "Requisition" =>
    match translateTok tr.requisitionStatuses record.status with
    | .error e => .error e
    | .ok status =>
    match translateTok tr.requisitionTypes record.type with
    | .error e => .error e
    | .ok reqType =>
      .ok [("ID", .s record.id),
            ("date_entered", .s (getDateString record.entryDate)),
            ("user_ID", .s record.enteredById),
            ("name_ID", optRefId record.otherStoreName),
            ("status", .s status),
            ("daysToSupply", .s (toString record.daysToSupply)),
            ("store_ID", .s settings.thisStoreId),
            ("serial_number", .s record.serialNumber),
            ("requester_reference", .s record.requesterReference),
            ("comment", .s record.comment),
            ("type", .s reqType)]
  | "RequisitionItem" =>
    .ok [("ID", .s record.id),
         ("requisition_ID", .s record.requisitionId),
         ("item_ID", .s record.itemId),
         ("stock_on_hand", .s (toString record.stockOnHand)),
         ("daily_usage", .s (toString record.dailyUsage)),
         ("suggested_quantity", .s (toString record.suggestedQuantity)),
         ("actualQuan", .s (toString record.suppliedQuantity)),
         ("line_number", .s (toString record.sortIndex)),
         ("Cust_stock_order", .s (toString record.requiredQuantity)),
         ("comment", .s record.comment)]
  | "Stocktake" =>
    match translateTok tr.statuses record.status with
    | .error e => .error e
    | .ok status =>
      .ok [("ID", .s record.id),
            ("Description", .s record.name),
            ("stock_take_date", .s (getDateString record.stocktakeDate)),
            ("stock_take_time", .s (getTimeString record.stocktakeDate)),
            ("created_by_ID", optRefId record.createdBy),
            ("status", .s status),
            ("finalised_by_ID", optRefId record.finalisedBy),
            ("invad_additions_ID", optRefId record.additions),
            ("invad_reductions_ID", optRefId record.reductions),
            ("store_ID", .s settings.thisStoreId),
            ("comment", .s record.comment),
            ("stock_take_created_date", .s (getDateString record.createdDate)),
            ("serial_number", .s record.serialNumber)]
  | "StocktakeBatch" =>
    .ok [("ID", .s record.id),
         ("stock_take_ID", optRefId record.stocktake),
         ("item_line_ID", .s record.itemBatchId),
         ("snapshot_qty", .s (toString record.snapshotNumberOfPacks)),
         ("snapshot_packsize", .s (toString record.packSize)),
         ("stock_take_qty", .s (toString record.countedNumberOfPacks)),
         ("line_number", .s (toString record.sortIndex)),
         ("expiry", .s (getDateString record.expiryDate)),
         ("cost_price", .s (toString record.costPrice)),
         ("sell_price", .s (toString record.sellPrice)),
         ("Batch", .s record.batch),
         ("item_ID", .s record.itemId)]
  | "Transaction" =>
    match translateTok tr.transactionTypes record.type with
    | .error e => .error e
    | .ok txType =>
    match translateTok tr.statuses record.status with
    | .error e => .error e
    | .ok status =>
      .ok [("ID", .s record.id),
            ("name_ID", optRefId record.otherParty),
            ("invoice_num", .s record.serialNumber),
            ("comment", .s record.comment),
            ("entry_date", .s (getDateString record.entryDate)),
            ("type", .s txType),
            ("status", .s status),
            ("mode", .s "store"),
            ("total", .s (toString record.totalPrice)),
            ("their_ref", .s record.theirRef),
            ("confirm_date", .s (getDateString record.confirmDate)),
            ("subtotal", .s (toString record.totalPrice)),
            ("user_ID", optRefId record.enteredBy),
            ("category_ID", optRefId record.category),
            ("confirm_time", .s (getTimeString record.confirmDate)),
            ("store_ID", .s settings.thisStoreId),
            ("requisition_ID", linkedRequisitionId record.linkedRequisition)]
  | "TransactionBatch" =>
    match txnField record.transaction (fun t => t.id) with
    | .error e => .error e
    | .ok transactionId =>
    match safeGet (.obj [("itemBatch", itemBatchAsJsValue record.itemBatch)]) "itemBatch.id" with
    | .error e => .error e
    | .ok itemLineId =>
    match txnField record.transaction (fun t => t.isInventoryAdjustment) with
    | .error e => .error e
    | .ok isInvAdj =>
    match txnField record.transaction (fun t => t.type) with
    | .error e => .error e
    | .ok tbInternalType =>
    match translateTok tr.transactionBatchTypes tbInternalType with
    | .error e => .error e
    | .ok tbType =>
      .ok [("ID", .s record.id),
            ("transaction_ID", .s transactionId),
            ("item_ID", .s record.itemId),
            ("batch", .s record.batch),
            ("price_extension", .s (toString record.totalPrice)),
            ("note", .s record.note),
            ("cost_price", .s (toString record.costPrice)),
            ("sell_price", .s (toString record.sellPrice)),
            ("expiry_date", .s (getDateString record.expiryDate)),
            ("pack_size", .s (toString record.packSize)),
            ("quantity", .s (toString record.numberOfPacks)),
            ("item_line_ID", jsToSyncValue itemLineId),
            ("line_number", .s (toString record.sortIndex)),
            ("item_name", .s record.itemName),
            ("is_from_inventory_adjustment", .b isInvAdj),
            ("type", .s tbType)]
  | _ => .error { message := "Sync out record type not supported." }

/-- Model of `generateSyncJson(database, settings, syncOutRecord)`
(`outgoingSyncUtils.js` lines 29-92), returning the result together
with the trace of external-collaborator calls (entity-store queries and
diagnostic reports). A `none` record models the falsy argument, an
invalid or field-missing record raises the input errors; the identity
fields are vocabulary-translated (record type before sync type, the
literal's evaluation order); a delete change returns the envelope with
no `Data`; otherwise the entity is looked up (zero matches and multiple
matches raise, outside the escalation `try`), and a projection failure
is enriched, reported through `notify`, rewritten to the user-safe
message and re-raised. A fault of `notify` itself is not caught by the
source, so it propagates in place of the rewritten error. -/
def generateSyncJson (database : Database) (settings : SettingsStore) (tr : Translators)
    (reporter : Reporter) (syncOutRecord : Option SyncOutRecord) :
    Except JsError SyncJson × List Event :=
  match syncOutRecord with
  | none => (.error { message := "Missing sync out record" }, [])
  | some r =>
    if !r.isValid then (.error { message := "Missing sync out record" }, [])
    else if r.recordType = "" || r.id = "" || r.recordId = "" then
      (.error { message := "Malformed sync out record" }, [])
    else
      let storeId := settings.thisStoreId
      match translateTok tr.recordTypes r.recordType with
      | .error e => (.error e, [])
      | .ok extRecordType =>
        match translateTok tr.syncTypes r.changeType with
        | .error e => (.error e, [])
        | .ok extSyncType =>
          let syncJson : SyncJson :=
            { SyncID := r.id, RecordType := extRecordType, RecordID := r.recordId,
              SyncType := extSyncType, StoreID := storeId, Data := none }
          if r.changeType = CHANGE_TYPE_DELETE then
            (.ok syncJson, [])
          else if r.changeType = "delete" then
            (.ok { syncJson with Data := some [("ID", .s r.recordId)] }, [])
          else
            match database r.recordType r.recordId with
            | [] =>
              (.error { message := r.recordType ++ " with id = " ++ r.recordId ++ " missing" },
               [Event.query r.recordType r.recordId])
            | [record] =>
              match generateSyncData tr settings r.recordType record with
              | .ok syncData =>
                (.ok { syncJson with Data := some syncData },
                 [Event.query r.recordType r.recordId])
              | .error e =>
                let originalMessage := e.message
                let bugsnagMessage :=
                  "SYNC OUT ERROR. siteName: " ++ settings.syncSiteName ++
                  ", serverUrl: " ++ settings.syncUrl ++
                  ", syncOutRecord.id: " ++ r.id ++
                  ", storeId: " ++ storeId ++ " changeType: " ++ r.changeType ++
                  ", recordType: " ++ r.recordType ++
                  ", recordId: " ++ r.recordId ++
                  ", message: " ++ originalMessage
                let enriched : JsError := { e with message := bugsnagMessage }
                let events := [Event.query r.recordType r.recordId,
                               Event.notify bugsnagMessage]
                match reporter enriched with
                | .error reporterFault => (.error reporterFault, events)
                | .ok _ =>
                  (.error { enriched with message :=
                      "There was an error syncing. Contact mSupply mobile support. " ++
                        originalMessage },
                   events)
            | _ :: _ :: _ =>
              (.error { message := "Multiple " ++ r.recordType ++ " records with id = " ++
                          r.recordId },
               [Event.query r.recordType r.recordId])

/-- Vocabulary tables used by the concrete runs below: one entry per
table, enough to drive every supported branch a witness needs. -/
def sampleTranslators : Translators :=
  { recordTypes := fun t =>
      if t = "Transaction" then some "transact"
      else if t = "TransactionBatch" then some "trans_line"
      else if t = "Requisition" then some "requisition"
      else if t = "Stocktake" then some "stock_take"
      else none,
    syncTypes := fun t =>
      if t = "update" then some "U"
      else if t = "delete" then some "D"
      else if t = "create" then some "I"
      else none,
    requisitionStatuses := fun t => if t = "suggested" then some "sg" else none,
    requisitionTypes := fun t => if t = "request" then some "request" else none,
    statuses := fun t => if t = "confirmed" then some "cn" else none,
    transactionTypes := fun t => if t = "supplier_invoice" then some "si" else none,
    transactionBatchTypes := fun t => if t = "supplier_invoice" then some "stock_in" else none,
    sequenceKeys := fun t sid =>
      if t = "serial_number" && sid = "store1" then some "serial_number_store1" else none }

/-- Concrete settings used by the runs below. -/
def sampleSettings : SettingsStore :=
  { thisStoreId := "store1", supplyingStoreNameId := "sup1",
    syncUrl := "http://server", syncSiteName := "site" }

/-- The reporter whose notify always succeeds. -/
def okReporter : Reporter := fun _ => .ok ()

/-- Concrete valid non-delete change record for a Transaction. -/
def updateChange : SyncOutRecord :=
  { id := "sync1", recordType := "Transaction", recordId := "rid1", changeType := "update" }

/-- Concrete valid delete change record for a Transaction. -/
def deleteChange : SyncOutRecord :=
  { id := "sync1", recordType := "Transaction", recordId := "rid1", changeType := "delete" }

/-- Concrete valid non-delete change record for a TransactionBatch. -/
def txnBatchChange : SyncOutRecord :=
  { id := "sync1", recordType := "TransactionBatch", recordId := "tb1", changeType := "update" }

/-- TransactionBatch entity whose `itemBatch` link was merge-deleted,
the historical corruption `safeGet` exists for. -/
def txnBatchBroken : RealmRecord :=
  { id := "tb1",
    transaction := some { id := "t1", isInventoryAdjustment := true, type := "supplier_invoice" },
    itemBatch := none }

/-- TransactionBatch entity with its `itemBatch` link intact. -/
def txnBatchWhole : RealmRecord :=
  { txnBatchBroken with itemBatch := some { id := "ib7" } }

/-- The store with no matching entity for any query. -/
def emptyDatabase : Database := fun _ _ => []

/-- The store answering every query with the broken TransactionBatch. -/
def txnBatchDatabase : Database := fun _ _ => [txnBatchBroken]

/-- Associativity of string concatenation, used to regroup the error
messages built by `safeGet` and the escalation handler. -/
theorem strAppend_assoc (a b c : String) : a ++ b ++ c = a ++ (b ++ c) := by
  apply String.ext
  simp [String.data_append, List.append_assoc]

/-- Unfolding equation of `extendPath` on a cons, the accumulator step
of the `currentPath` computation. -/
theorem extendPath_cons (cp s : String) (l : List String) :
    extendPath cp (s :: l) = extendPath (cp ++ "." ++ s) l := rfl

/-- Unfolding equation of `walkList` on a cons. -/
theorem walkList_cons (v : JsValue) (s : String) (l : List String) :
    walkList v (s :: l) = walkList (lookupProp v s) l := rfl

/-- Error characterisation of the `safeGet` loop: a raised error always
carries `canDeleteSyncOut = true`, and its message embeds the
accumulated path extended by exactly the segments up to and including
the first one whose receiver is nullish. -/
theorem safeGetAux_error_spec :
    ∀ (segs : List String) (v : JsValue) (cp : String) (e : JsError),
      safeGetAux v segs cp = .error e →
      e.canDeleteSyncOut = true ∧
      ∃ k, k < segs.length ∧
        isNullish (walkList v (segs.take k)) = true ∧
        (∀ j, j < k → isNullish (walkList v (segs.take j)) = false) ∧
        ∃ orig, e.message = "Error on object getter on path \"" ++
          extendPath cp (segs.take (k + 1)) ++ "\", original message: " ++ orig
  | [], v, cp, e, h => by simp [safeGetAux] at h
  | seg :: rest, v, cp, e, h => by
    rw [safeGetAux, getProp] at h
    cases hv : isNullish v with
    | true =>
      rw [hv] at h
      simp only [if_true] at h
      cases h
      refine ⟨rfl, 0, Nat.succ_pos _, ?_, ?_, ?_⟩
      · simpa [walkList] using hv
      · intro j hj; omega
      · exact ⟨_, rfl⟩
    | false =>
      rw [hv] at h
      simp only [if_false, Bool.false_eq_true] at h
      obtain ⟨hflag, k, hk, hnull, hmin, orig, hmsg⟩ :=
        safeGetAux_error_spec rest (lookupProp v seg) (cp ++ "." ++ seg) e h
      refine ⟨hflag, k + 1, Nat.succ_lt_succ hk, ?_, ?_, orig, ?_⟩
      · rw [List.take_succ_cons, walkList_cons]; exact hnull
      · intro j hj
        cases j with
        | zero => simpa [walkList] using hv
        | succ j' =>
          rw [List.take_succ_cons, walkList_cons]
          exact hmin j' (Nat.lt_of_succ_lt_succ hj)
      · rw [List.take_succ_cons, extendPath_cons]; exact hmsg

/-- Success characterisation of the `safeGet` loop: the returned value
is the fault-free walk of the whole path, and no receiver traversed on
the way was nullish. -/
theorem safeGetAux_ok_spec :
    ∀ (segs : List String) (v : JsValue) (cp : String) (w : JsValue),
      safeGetAux v segs cp = .ok w →
      w = walkList v segs ∧
      ∀ k, k < segs.length → isNullish (walkList v (segs.take k)) = false
  | [], v, cp, w, h => by
    refine ⟨?_, by intro k hk; simp at hk⟩
    simpa [safeGetAux, walkList] using h.symm
  | seg :: rest, v, cp, w, h => by
    rw [safeGetAux, getProp] at h
    cases hv : isNullish v with
    | true => rw [hv] at h; simp at h
    | false =>
      rw [hv] at h
      simp only [if_false, Bool.false_eq_true] at h
      obtain ⟨hw, hall⟩ := safeGetAux_ok_spec rest (lookupProp v seg) (cp ++ "." ++ seg) w h
      refine ⟨by rw [walkList_cons]; exact hw, ?_⟩
      intro k hk
      cases k with
      | zero => simpa [walkList] using hv
      | succ k' =>
        rw [List.take_succ_cons, walkList_cons]
        exact hall k' (Nat.lt_of_succ_lt_succ hk)

/-- C3: whenever a path segment access faults, `safeGet` raises an
error whose `canDeleteSyncOut` marker is true and whose message
contains the exact path prefix — the root (named `record`) extended by
the segments up to and including the faulting one. -/
theorem safeGet_fault_deletable_and_path (record : JsValue) (path : String) (e : JsError)
    (h : safeGet record path = .error e) :
    e.canDeleteSyncOut = true ∧
    ∃ k, k < (splitSegs path).length ∧
      isNullish (walkList record ((splitSegs path).take k)) = true ∧
      (∀ j, j < k → isNullish (walkList record ((splitSegs path).take j)) = false) ∧
      ∃ pre post, e.message =
        pre ++ extendPath "record" ((splitSegs path).take (k + 1)) ++ post := by
  obtain ⟨hflag, k, hk, hnull, hmin, orig, hmsg⟩ :=
    safeGetAux_error_spec (splitSegs path) record "record" e h
  refine ⟨hflag, k, hk, hnull, hmin,
    "Error on object getter on path \"", "\", original message: " ++ orig, ?_⟩
  rw [hmsg, strAppend_assoc]

/-- The error raised when `safeGet` dereferences the merge-deleted
`itemBatch` link of a TransactionBatch. -/
def brokenItemBatchError : JsError :=
  { message := "Error on object getter on path \"record.itemBatch.id\", original message: " ++
      "TypeError: cannot read property id of nullish value",
    canDeleteSyncOut := true }

/-- Witness for C3: the fault on `itemBatch.id` over a record whose
`itemBatch` is null carries the deletable marker and names the failing
prefix `record.itemBatch.id`. -/
theorem safeGet_fault_deletable_and_path_witness :
    brokenItemBatchError.canDeleteSyncOut = true ∧
    ∃ k, k < (splitSegs "itemBatch.id").length ∧
      isNullish (walkList (JsValue.obj [("itemBatch", JsValue.null)])
        ((splitSegs "itemBatch.id").take k)) = true ∧
      (∀ j, j < k → isNullish (walkList (JsValue.obj [("itemBatch", JsValue.null)])
        ((splitSegs "itemBatch.id").take j)) = false) ∧
      ∃ pre post, brokenItemBatchError.message =
        pre ++ extendPath "record" ((splitSegs "itemBatch.id").take (k + 1)) ++ post :=
  safeGet_fault_deletable_and_path (JsValue.obj [("itemBatch", JsValue.null)])
    "itemBatch.id" brokenItemBatchError rfl

/-- C10: `safeGet` raises an error exactly when some traversed prefix
value is null or undefined at the moment it is dereferenced; when every
traversed receiver supports property access the call returns the walked
value — in particular a merely missing property (including the final
segment) yields `undefined` without any error. -/
theorem safeGet_error_iff_nullish (record : JsValue) (path : String) :
    ((∃ e, safeGet record path = .error e) ↔
      ∃ k, k < (splitSegs path).length ∧
        isNullish (walkList record ((splitSegs path).take k)) = true) ∧
    ∀ w, safeGet record path = .ok w → w = walkList record (splitSegs path) := by
  constructor
  · constructor
    · rintro ⟨e, h⟩
      obtain ⟨-, k, hk, hnull, -, -⟩ := safeGetAux_error_spec (splitSegs path) record "record" e h
      exact ⟨k, hk, hnull⟩
    · rintro ⟨k, hk, hnull⟩
      cases hcase : safeGet record path with
      | error e => exact ⟨e, rfl⟩
      | ok w =>
        obtain ⟨-, hall⟩ := safeGetAux_ok_spec (splitSegs path) record "record" w hcase
        rw [hall k hk] at hnull
        cases hnull
  · intro w h
    exact (safeGetAux_ok_spec (splitSegs path) record "record" w h).1

/-- Witness for C10, error direction: walking `a.b.c` over an object
whose `a` is an empty object reaches `undefined` at `a.b` and therefore
faults on `.c`. -/
theorem safeGet_error_iff_nullish_witness :
    ∃ e, safeGet (JsValue.obj [("a", JsValue.obj [])]) "a.b.c" = .error e :=
  (safeGet_error_iff_nullish (JsValue.obj [("a", JsValue.obj [])]) "a.b.c").1.mpr
    ⟨2, by decide, by decide⟩

/-- C5: `getDateString` renders a present structured date as
`YYYY-MM-DD` and anything absent as the literal `0000-00-00`, always
appending `T00:00:00`; in particular `getDateString(undefined)` is
`0000-00-00T00:00:00` and `getDateString(new Date(2024, 0, 15))` is
`2024-01-15T00:00:00`. -/
theorem getDateString_spec :
    getDateString none = "0000-00-00T00:00:00" ∧
    (∀ d : JsDate, getDateString (some d) = isoDatePart d ++ "T00:00:00") ∧
    getDateString (some (jsNewDate 2024 0 15)) = "2024-01-15T00:00:00" :=
  ⟨rfl, fun _ => rfl, rfl⟩

/-- C2: for every valid delete change record whose tokens are in the
vocabulary, `generateSyncJson` returns the envelope carrying SyncID,
RecordType, RecordID, SyncType and StoreID with no `Data` field, and
the collaborator trace is empty — in particular the entity store is
never queried. -/
theorem generateSyncJson_delete_no_data_no_query (database : Database)
    (settings : SettingsStore) (tr : Translators) (reporter : Reporter)
    (r : SyncOutRecord) (extRT extST : String)
    (hval : r.isValid = true) (hrt : r.recordType ≠ "") (hid : r.id ≠ "")
    (hrid : r.recordId ≠ "") (hdel : r.changeType = "delete")
    (htr : tr.recordTypes r.recordType = some extRT)
    (hts : tr.syncTypes r.changeType = some extST) :
    generateSyncJson database settings tr reporter (some r) =
      (.ok { SyncID := r.id, RecordType := extRT, RecordID := r.recordId,
             SyncType := extST, StoreID := settings.thisStoreId, Data := none }, []) := by
  rw [hdel] at hts
  simp [generateSyncJson, hval, hrt, hid, hrid, hdel, translateTok, htr, hts, CHANGE_TYPE_DELETE]

/-- Witness for C2 at a concrete delete change record. -/
theorem generateSyncJson_delete_no_data_no_query_witness :
    generateSyncJson emptyDatabase sampleSettings sampleTranslators okReporter
        (some deleteChange) =
      (.ok { SyncID := "sync1", RecordType := "transact", RecordID := "rid1",
             SyncType := "D", StoreID := "store1", Data := none }, []) :=
  generateSyncJson_delete_no_data_no_query emptyDatabase sampleSettings sampleTranslators
    okReporter deleteChange "transact" "D" rfl (by decide) (by decide) (by decide) rfl rfl rfl

/-- C1 fails on the code: at this concrete valid non-delete change
record the entity lookup yields zero matches and the builder raises the
record-missing error, but the collaborator trace contains zero
diagnostic-report calls, not the exactly one the claim requires — the
lookup errors are thrown before (outside) the try/catch that calls
notify. -/
theorem lookup_failure_no_notify_counterexample :
    (generateSyncJson emptyDatabase sampleSettings sampleTranslators okReporter
        (some updateChange)).1 =
      .error { message := "Transaction with id = rid1 missing" } ∧
    notifyCount (generateSyncJson emptyDatabase sampleSettings sampleTranslators okReporter
        (some updateChange)).2 = 0 :=
  ⟨rfl, rfl⟩

/-- C1 amended: for every valid non-delete change record, a lookup with
zero matches raises the record-missing (not-found) error and a lookup
with two or more matches raises the duplicate error, and in both cases
the trace holds exactly the one store query — no diagnostic-report call
is made before the error reaches the caller. -/
theorem generateSyncJson_lookup_failures (database : Database) (settings : SettingsStore)
    (tr : Translators) (reporter : Reporter) (r : SyncOutRecord) (extRT extST : String)
    (hval : r.isValid = true) (hrt : r.recordType ≠ "") (hid : r.id ≠ "")
    (hrid : r.recordId ≠ "") (hdel : r.changeType ≠ "delete")
    (htr : tr.recordTypes r.recordType = some extRT)
    (hts : tr.syncTypes r.changeType = some extST) :
    (database r.recordType r.recordId = [] →
      generateSyncJson database settings tr reporter (some r) =
        (.error { message := r.recordType ++ " with id = " ++ r.recordId ++ " missing" },
         [Event.query r.recordType r.recordId])) ∧
    (∀ a b rest, database r.recordType r.recordId = a :: b :: rest →
      generateSyncJson database settings tr reporter (some r) =
        (.error { message := "Multiple " ++ r.recordType ++ " records with id = " ++
            r.recordId },
         [Event.query r.recordType r.recordId])) := by
  constructor
  · intro hdb
    simp [generateSyncJson, hval, hrt, hid, hrid, hdel, translateTok, htr, hts,
      CHANGE_TYPE_DELETE, hdb]
  · intro a b rest hdb
    simp [generateSyncJson, hval, hrt, hid, hrid, hdel, translateTok, htr, hts,
      CHANGE_TYPE_DELETE, hdb]

/-- Witness for the amended C1, zero-match side, at a concrete change
record against the empty store. -/
theorem generateSyncJson_lookup_failures_witness :
    generateSyncJson emptyDatabase sampleSettings sampleTranslators okReporter
        (some updateChange) =
      (.error { message := "Transaction with id = rid1 missing" },
       [Event.query "Transaction" "rid1"]) :=
  (generateSyncJson_lookup_failures emptyDatabase sampleSettings sampleTranslators
    okReporter updateChange "transact" "U" rfl (by decide) (by decide) (by decide)
    (by decide) rfl rfl).1 rfl

/-- C9: the translation is a deterministic function of its inputs: the
result depends only on the settings, the vocabulary tables, the change
record, and the store's answer at the record's own (recordType,
recordId) key. The source keeps no mutable state across calls and its
one side effect (notify) does not feed the result, so two calls with no
store mutation in between read the same inputs and yield identical
envelopes. -/
theorem generateSyncJson_deterministic (db1 db2 : Database) (settings : SettingsStore)
    (tr : Translators) (reporter : Reporter) (r : SyncOutRecord)
    (h : db1 r.recordType r.recordId = db2 r.recordType r.recordId) :
    generateSyncJson db1 settings tr reporter (some r) =
      generateSyncJson db2 settings tr reporter (some r) := by
  simp only [generateSyncJson, h]

/-- A second store that differs from the empty one away from the
queried key but agrees at it. -/
def altDatabase : Database := fun rt _ => if rt = "ItemBatch" then [txnBatchBroken] else []

/-- Witness for C9: two stores agreeing at the queried key produce the
same envelope even though they differ elsewhere. -/
theorem generateSyncJson_deterministic_witness :
    generateSyncJson emptyDatabase sampleSettings sampleTranslators okReporter
        (some updateChange) =
      generateSyncJson altDatabase sampleSettings sampleTranslators okReporter
        (some updateChange) :=
  generateSyncJson_deterministic emptyDatabase altDatabase sampleSettings sampleTranslators
    okReporter updateChange (by decide)

/-- C4: an error raised during field projection that carries
`canDeleteSyncOut = true` is re-raised by the builder with its message
rewritten to the user-safe form by Error Escalation, still carrying the
marker with value true (the source mutates only the `message` property
of the same error object). -/
theorem canDelete_marker_survives_rewrite (database : Database) (settings : SettingsStore)
    (tr : Translators) (reporter : Reporter) (r : SyncOutRecord) (record : RealmRecord)
    (e : JsError) (extRT extST : String)
    (hval : r.isValid = true) (hrt : r.recordType ≠ "") (hid : r.id ≠ "")
    (hrid : r.recordId ≠ "") (hdel : r.changeType ≠ "delete")
    (htr : tr.recordTypes r.recordType = some extRT)
    (hts : tr.syncTypes r.changeType = some extST)
    (hdb : database r.recordType r.recordId = [record])
    (hproj : generateSyncData tr settings r.recordType record = .error e)
    (hflag : e.canDeleteSyncOut = true)
    (hrep : ∀ err, reporter err = .ok ()) :
    (generateSyncJson database settings tr reporter (some r)).1 =
      .error { message := "There was an error syncing. Contact mSupply mobile support. " ++
                 e.message,
               canDeleteSyncOut := true } := by
  simp [generateSyncJson, hval, hrt, hid, hrid, hdel, translateTok, htr, hts,
    CHANGE_TYPE_DELETE, hdb, hproj, hrep, hflag]

/-- Witness for C4: the merge-deleted `itemBatch` fault (deletable) is
re-raised after rewriting with the marker still true. -/
theorem canDelete_marker_survives_rewrite_witness :
    (generateSyncJson txnBatchDatabase sampleSettings sampleTranslators okReporter
        (some txnBatchChange)).1 =
      .error { message := "There was an error syncing. Contact mSupply mobile support. " ++
                 brokenItemBatchError.message,
               canDeleteSyncOut := true } :=
  canDelete_marker_survives_rewrite txnBatchDatabase sampleSettings sampleTranslators
    okReporter txnBatchChange txnBatchBroken brokenItemBatchError "trans_line" "U"
    rfl (by decide) (by decide) (by decide) (by decide) rfl rfl rfl rfl rfl (fun _ => rfl)

/-- Transaction entity with every optional reference absent. -/
def txnNoRefs : RealmRecord :=
  { id := "t9", type := "supplier_invoice", status := "confirmed" }

/-- The payload the projector produces for `txnNoRefs`: the absent
references surface as null fields; only `requisition_ID`, converted by
its explicit ternary, carries the absent (undefined) value. -/
def txnNoRefsData : SyncData :=
  [("ID", .s "t9"),
   ("name_ID", .nullv),
   ("invoice_num", .s ""),
   ("comment", .s ""),
   ("entry_date", .s "0000-00-00T00:00:00"),
   ("type", .s "si"),
   ("status", .s "cn"),
   ("mode", .s "store"),
   ("total", .s "0"),
   ("their_ref", .s ""),
   ("confirm_date", .s "0000-00-00T00:00:00"),
   ("subtotal", .s "0"),
   ("user_ID", .nullv),
   ("category_ID", .nullv),
   ("confirm_time", .s "00:00:00"),
   ("store_ID", .s "store1"),
   ("requisition_ID", .undefined)]

/-- C6 fails on the code: for this Transaction with an absent
`otherParty` the projector sets `name_ID` to JavaScript null (Realm
yields null for the absent link and `null && null.id` evaluates to
null), and wire serialization keeps null-valued fields — so the field
is set to null in the payload, not omitted. -/
theorem absent_reference_null_counterexample :
    generateSyncData sampleTranslators sampleSettings "Transaction" txnNoRefs =
      .ok txnNoRefsData ∧
    ("name_ID", SyncValue.nullv) ∈ txnNoRefsData ∧
    ("name_ID", SyncValue.nullv) ∈ serializedFields txnNoRefsData :=
  ⟨rfl, by decide, by decide⟩

/-- C6 amended: when an optional entity reference read through the
plain `x && x.id` idiom is absent, the corresponding external field is
set to null in the Data payload — and kept by wire serialization —
rather than omitted: stated for `Requisition.otherStoreName`
(`name_ID`), the four Stocktake references and the three optional
Transaction references. The one genuine omission in the projector is
`requisition_ID`, whose explicit ternary converts the absent case to
undefined, which serialization drops. -/
theorem optional_references_null (tr : Translators) (settings : SettingsStore)
    (record : RealmRecord) :
    (∀ data, generateSyncData tr settings "Requisition" record = .ok data →
      record.otherStoreName = none →
        ("name_ID", SyncValue.nullv) ∈ data ∧
        ("name_ID", SyncValue.nullv) ∈ serializedFields data ∧
        ∀ v, ("name_ID", v) ∈ data → v = SyncValue.nullv) ∧
    (∀ data, generateSyncData tr settings "Stocktake" record = .ok data →
      (record.createdBy = none →
        ("created_by_ID", SyncValue.nullv) ∈ data ∧
        ("created_by_ID", SyncValue.nullv) ∈ serializedFields data ∧
        ∀ v, ("created_by_ID", v) ∈ data → v = SyncValue.nullv) ∧
      (record.finalisedBy = none →
        ("finalised_by_ID", SyncValue.nullv) ∈ data ∧
        ("finalised_by_ID", SyncValue.nullv) ∈ serializedFields data ∧
        ∀ v, ("finalised_by_ID", v) ∈ data → v = SyncValue.nullv) ∧
      (record.additions = none →
        ("invad_additions_ID", SyncValue.nullv) ∈ data ∧
        ("invad_additions_ID", SyncValue.nullv) ∈ serializedFields data ∧
        ∀ v, ("invad_additions_ID", v) ∈ data → v = SyncValue.nullv) ∧
      (record.reductions = none →
        ("invad_reductions_ID", SyncValue.nullv) ∈ data ∧
        ("invad_reductions_ID", SyncValue.nullv) ∈ serializedFields data ∧
        ∀ v, ("invad_reductions_ID", v) ∈ data → v = SyncValue.nullv)) ∧
    (∀ data, generateSyncData tr settings "Transaction" record = .ok data →
      (record.otherParty = none →
        ("name_ID", SyncValue.nullv) ∈ data ∧
        ("name_ID", SyncValue.nullv) ∈ serializedFields data ∧
        ∀ v, ("name_ID", v) ∈ data → v = SyncValue.nullv) ∧
      (record.enteredBy = none →
        ("user_ID", SyncValue.nullv) ∈ data ∧
        ("user_ID", SyncValue.nullv) ∈ serializedFields data ∧
        ∀ v, ("user_ID", v) ∈ data → v = SyncValue.nullv) ∧
      (record.category = none →
        ("category_ID", SyncValue.nullv) ∈ data ∧
        ("category_ID", SyncValue.nullv) ∈ serializedFields data ∧
        ∀ v, ("category_ID", v) ∈ data → v = SyncValue.nullv) ∧
      (record.linkedRequisition = none →
        ("requisition_ID", SyncValue.undefined) ∈ data ∧
        ("requisition_ID", SyncValue.undefined) ∉ serializedFields data)) := by
  refine ⟨?_, ?_, ?_⟩
  · intro data h hnone
    simp only [generateSyncData] at h
    cases hs : translateTok tr.requisitionStatuses record.status with
    | error e => rw [hs] at h; simp at h
    | ok st =>
      rw [hs] at h
      cases ht : translateTok tr.requisitionTypes record.type with
      | error e => rw [ht] at h; simp at h
      | ok ty =>
        rw [ht] at h
        simp only [Except.ok.injEq] at h
        subst h
        refine ⟨by simp [hnone, optRefId], ?_, ?_⟩
        · simp [serializedFields, List.mem_filter, hnone, optRefId]
        · intro v hv
          simp [hnone, optRefId, List.mem_cons, Prod.mk.injEq] at hv
          exact hv
  · intro data h
    simp only [generateSyncData] at h
    cases hs : translateTok tr.statuses record.status with
    | error e => rw [hs] at h; simp at h
    | ok st =>
      rw [hs] at h
      simp only [Except.ok.injEq] at h
      subst h
      refine ⟨?_, ?_, ?_, ?_⟩ <;> intro hnone <;>
        refine ⟨by simp [hnone, optRefId], ?_, ?_⟩
      · simp [serializedFields, List.mem_filter, hnone, optRefId]
      · intro v hv
        simp [hnone, optRefId, List.mem_cons, Prod.mk.injEq] at hv
        exact hv
      · simp [serializedFields, List.mem_filter, hnone, optRefId]
      · intro v hv
        simp [hnone, optRefId, List.mem_cons, Prod.mk.injEq] at hv
        exact hv
      · simp [serializedFields, List.mem_filter, hnone, optRefId]
      · intro v hv
        simp [hnone, optRefId, List.mem_cons, Prod.mk.injEq] at hv
        exact hv
      · simp [serializedFields, List.mem_filter, hnone, optRefId]
      · intro v hv
        simp [hnone, optRefId, List.mem_cons, Prod.mk.injEq] at hv
        exact hv
  · intro data h
    simp only [generateSyncData] at h
    cases htt : translateTok tr.transactionTypes record.type with
    | error e => rw [htt] at h; simp at h
    | ok ty =>
      rw [htt] at h
      cases hs : translateTok tr.statuses record.status with
      | error e => rw [hs] at h; simp at h
      | ok st =>
        rw [hs] at h
        simp only [Except.ok.injEq] at h
        subst h
        refine ⟨?_, ?_, ?_, ?_⟩
        · intro hnone
          refine ⟨by simp [hnone, optRefId], ?_, ?_⟩
          · simp [serializedFields, List.mem_filter, hnone, optRefId]
          · intro v hv
            simp [hnone, optRefId, linkedRequisitionId, List.mem_cons, Prod.mk.injEq] at hv
            exact hv
        · intro hnone
          refine ⟨by simp [hnone, optRefId], ?_, ?_⟩
          · simp [serializedFields, List.mem_filter, hnone, optRefId]
          · intro v hv
            simp [hnone, optRefId, linkedRequisitionId, List.mem_cons, Prod.mk.injEq] at hv
            exact hv
        · intro hnone
          refine ⟨by simp [hnone, optRefId], ?_, ?_⟩
          · simp [serializedFields, List.mem_filter, hnone, optRefId]
          · intro v hv
            simp [hnone, optRefId, linkedRequisitionId, List.mem_cons, Prod.mk.injEq] at hv
            exact hv
        · intro hnone
          constructor
          · simp [hnone, linkedRequisitionId]
          · simp [serializedFields, List.mem_filter]

/-- Witness for the amended C6 at the concrete Transaction with no
optional references. -/
theorem optional_references_null_witness :
    ("name_ID", SyncValue.nullv) ∈ txnNoRefsData ∧
    ("name_ID", SyncValue.nullv) ∈ serializedFields txnNoRefsData ∧
    ∀ v, ("name_ID", v) ∈ txnNoRefsData → v = SyncValue.nullv :=
  ((optional_references_null sampleTranslators sampleSettings txnNoRefs).2.2
      txnNoRefsData rfl).1 rfl

/-- The external fields read through the plain `x && x.id` idiom — the
ones that may legitimately carry null. -/
def optionalRefFieldNames : List String :=
  ["name_ID", "created_by_ID", "finalised_by_ID", "invad_additions_ID",
   "invad_reductions_ID", "stock_take_ID", "user_ID", "category_ID"]

/-- Field-value classification used by the amended C7: a string; null
under one of the optional-reference field names; the absent value under
`requisition_ID`; or the boolean under
`is_from_inventory_adjustment`. -/
def goodField (kv : String × SyncValue) : Prop :=
  (∃ s, kv.2 = SyncValue.s s) ∨
  (kv.2 = SyncValue.nullv ∧ kv.1 ∈ optionalRefFieldNames) ∨
  (kv.2 = SyncValue.undefined ∧ kv.1 = "requisition_ID") ∨
  (kv.1 = "is_from_inventory_adjustment" ∧ ∃ b, kv.2 = SyncValue.b b)

/-- String-valued fields are good. -/
theorem goodField_s (n x : String) : goodField (n, SyncValue.s x) := Or.inl ⟨x, rfl⟩

/-- Optional-reference fields are good under their own names: absent
gives null, present gives the id string. -/
theorem goodField_optRefId (n : String) (hn : n ∈ optionalRefFieldNames)
    (o : Option EntityRef) : goodField (n, optRefId o) := by
  cases o with
  | none => exact Or.inr (Or.inl ⟨rfl, hn⟩)
  | some r => exact Or.inl ⟨r.id, rfl⟩

/-- The `requisition_ID` ternary yields a string or its absent value. -/
theorem goodField_reqTernary (o : Option EntityRef) :
    goodField ("requisition_ID", linkedRequisitionId o) := by
  rcases o with _ | r
  · exact Or.inr (Or.inr (Or.inl ⟨rfl, rfl⟩))
  · simp only [linkedRequisitionId]
    by_cases hid : r.id = ""
    · rw [if_pos hid]
      exact Or.inr (Or.inr (Or.inl ⟨rfl, rfl⟩))
    · rw [if_neg hid]
      exact Or.inl ⟨r.id, rfl⟩

/-- The one boolean field is good under its own name. -/
theorem goodField_invAdj (b : Bool) :
    goodField ("is_from_inventory_adjustment", SyncValue.b b) :=
  Or.inr (Or.inr (Or.inr ⟨rfl, b, rfl⟩))

/-- The payload the projector produces for `txnBatchWhole`. -/
def wholeBatchData : SyncData :=
  [("ID", .s "tb1"),
   ("transaction_ID", .s "t1"),
   ("item_ID", .s ""),
   ("batch", .s ""),
   ("price_extension", .s "0"),
   ("note", .s ""),
   ("cost_price", .s "0"),
   ("sell_price", .s "0"),
   ("expiry_date", .s "0000-00-00T00:00:00"),
   ("pack_size", .s "0"),
   ("quantity", .s "0"),
   ("item_line_ID", .s "ib7"),
   ("line_number", .s "0"),
   ("item_name", .s ""),
   ("is_from_inventory_adjustment", .b true),
   ("type", .s "stock_in")]

/-- C7 fails on the code: this successfully produced TransactionBatch
payload carries the boolean value `true` (not a string, not omitted)
under `is_from_inventory_adjustment` — the source copies the
transaction's `isInventoryAdjustment` getter without `String(...)`. -/
theorem boolean_payload_value_counterexample :
    generateSyncData sampleTranslators sampleSettings "TransactionBatch" txnBatchWhole =
      .ok wholeBatchData ∧
    ("is_from_inventory_adjustment", SyncValue.b true) ∈ wholeBatchData :=
  ⟨rfl, by decide⟩

/-- C7 amended: in every successfully produced payload every field
value is a string, except that an optional-reference field may carry
null (when its reference is absent), `requisition_ID` may carry the
absent (omitted) value, and the single field
`is_from_inventory_adjustment` carries a boolean; numeric and
date-like internal values are all rendered as strings. -/
theorem generateSyncData_value_shapes (tr : Translators) (settings : SettingsStore)
    (recordType : String) (record : RealmRecord) (data : SyncData)
    (h : generateSyncData tr settings recordType record = .ok data) :
    ∀ kv ∈ data, goodField kv := by
  unfold generateSyncData at h
  split at h
  · simp only [Except.ok.injEq] at h; subst h
    simp [List.forall_mem_cons, goodField_s]
  · cases hk : translateSeqKey tr record.sequenceKey settings.thisStoreId with
    | error e => rw [hk] at h; simp at h
    | ok name =>
      rw [hk] at h; simp only [Except.ok.injEq] at h; subst h
      simp [List.forall_mem_cons, goodField_s]
  · cases hk : translateSeqKey tr record.sequenceKey settings.thisStoreId with
    | error e => rw [hk] at h; simp at h
    | ok name =>
      rw [hk] at h; simp only [Except.ok.injEq] at h; subst h
      simp [List.forall_mem_cons, goodField_s]
  · cases hs : translateTok tr.requisitionStatuses record.status with
    | error e => rw [hs] at h; simp at h
    | ok st =>
      rw [hs] at h
      cases ht : translateTok tr.requisitionTypes record.type with
      | error e => rw [ht] at h; simp at h
      | ok ty =>
        rw [ht] at h; simp only [Except.ok.injEq] at h; subst h
        simp [List.forall_mem_cons, goodField_s, goodField_optRefId, optionalRefFieldNames]
  · simp only [Except.ok.injEq] at h; subst h
    simp [List.forall_mem_cons, goodField_s]
  · cases hs : translateTok tr.statuses record.status with
    | error e => rw [hs] at h; simp at h
    | ok st =>
      rw [hs] at h; simp only [Except.ok.injEq] at h; subst h
      simp [List.forall_mem_cons, goodField_s, goodField_optRefId, optionalRefFieldNames]
  · simp only [Except.ok.injEq] at h; subst h
    simp [List.forall_mem_cons, goodField_s, goodField_optRefId, optionalRefFieldNames]
  · cases htt : translateTok tr.transactionTypes record.type with
    | error e => rw [htt] at h; simp at h
    | ok ty =>
      rw [htt] at h
      cases hs : translateTok tr.statuses record.status with
      | error e => rw [hs] at h; simp at h
      | ok st =>
        rw [hs] at h; simp only [Except.ok.injEq] at h; subst h
        simp [List.forall_mem_cons, goodField_s, goodField_optRefId, goodField_reqTernary,
          optionalRefFieldNames]
  · cases htx : record.transaction with
    | none => rw [htx] at h; simp [txnField] at h
    | some t =>
      rw [htx] at h
      cases hib : record.itemBatch with
      | none =>
        rw [hib] at h
        rw [show safeGet (JsValue.obj [("itemBatch", itemBatchAsJsValue none)]) "itemBatch.id" =
          .error brokenItemBatchError from rfl] at h
        simp [txnField] at h
      | some ib =>
        rw [hib] at h
        rw [show safeGet (JsValue.obj [("itemBatch", itemBatchAsJsValue (some ib))])
          "itemBatch.id" = .ok (.str ib.id) from rfl] at h
        simp only [txnField] at h
        cases htb : translateTok tr.transactionBatchTypes t.type with
        | error e => rw [htb] at h; simp at h
        | ok tb =>
          rw [htb] at h; simp only [Except.ok.injEq] at h; subst h
          simp [List.forall_mem_cons, goodField_s, goodField_invAdj, jsToSyncValue]
  · simp at h

/-- Witness for the amended C7: the boolean field of the concrete whole
TransactionBatch payload is covered by the classification. -/
theorem generateSyncData_value_shapes_witness :
    goodField ("is_from_inventory_adjustment", SyncValue.b true) :=
  generateSyncData_value_shapes sampleTranslators sampleSettings "TransactionBatch"
    txnBatchWhole wholeBatchData rfl ("is_from_inventory_adjustment", SyncValue.b true)
    (by decide)

/-- The reporter whose notify call always faults. -/
def failingReporter : Reporter := fun _ => .error { message := "bugsnag transport down" }

/-- C8 fails on the code: at this concrete projection failure the
diagnostic-reporting call itself faults, and the fault is not caught
and discarded — the builder propagates the reporter's error to the
caller in place of the original translation error (second conjunct:
the error the projector actually raised, which differs from the
propagated one, third conjunct). -/
theorem reporter_fault_masks_error_counterexample :
    (generateSyncJson txnBatchDatabase sampleSettings sampleTranslators failingReporter
        (some txnBatchChange)).1 =
      .error { message := "bugsnag transport down" } ∧
    generateSyncData sampleTranslators sampleSettings "TransactionBatch" txnBatchBroken =
      .error brokenItemBatchError ∧
    ({ message := "bugsnag transport down" } : JsError) ≠ brokenItemBatchError :=
  ⟨rfl, rfl, by decide⟩

/-- C8 amended: when the diagnostic-reporting call faults during error
escalation, its fault is not caught: it propagates to the caller in
place of the original translation error, and the user-safe message
rewrite never happens; only when notify succeeds is the original error
re-raised. -/
theorem reporter_fault_propagates (database : Database) (settings : SettingsStore)
    (tr : Translators) (reporter : Reporter) (r : SyncOutRecord) (record : RealmRecord)
    (e fault : JsError) (extRT extST : String)
    (hval : r.isValid = true) (hrt : r.recordType ≠ "") (hid : r.id ≠ "")
    (hrid : r.recordId ≠ "") (hdel : r.changeType ≠ "delete")
    (htr : tr.recordTypes r.recordType = some extRT)
    (hts : tr.syncTypes r.changeType = some extST)
    (hdb : database r.recordType r.recordId = [record])
    (hproj : generateSyncData tr settings r.recordType record = .error e)
    (hrep : ∀ err, reporter err = .error fault) :
    (generateSyncJson database settings tr reporter (some r)).1 = .error fault := by
  simp [generateSyncJson, hval, hrt, hid, hrid, hdel, translateTok, htr, hts,
    CHANGE_TYPE_DELETE, hdb, hproj, hrep]

/-- Witness for the amended C8 at the concrete broken TransactionBatch
run with the failing reporter. -/
theorem reporter_fault_propagates_witness :
    (generateSyncJson txnBatchDatabase sampleSettings sampleTranslators failingReporter
        (some txnBatchChange)).1 =
      .error { message := "bugsnag transport down" } :=
  reporter_fault_propagates txnBatchDatabase sampleSettings sampleTranslators failingReporter
    txnBatchChange txnBatchBroken brokenItemBatchError { message := "bugsnag transport down" }
    "trans_line" "U" rfl (by decide) (by decide) (by decide) (by decide) rfl rfl rfl rfl
    (fun _ => rfl)
